import Mathlib

/-!
Verification development for the kernel-bot onboarding core.

The source consists of three JavaScript components:
  - `UserState` (src/onboarding/models/UserState.js): a per-user, per-guild
    onboarding record with a step-advance state machine (`completeStep`).
  - `OnboardingConfig` (src/onboarding/models/OnboardingConfig.js): per-guild
    settings with a `validate()` check.
  - `UserStateManager` (src/onboarding/managers/UserStateManager.js): an
    in-memory map from composite key `"{guildId}-{userId}"` to `UserState`,
    flushed in full to a JSON file on every mutating call.

Modelling choices:
  - JavaScript ISO-8601 timestamp strings (`new Date().toISOString()`) are
    abstracted as integer instants; each operation that reads the clock takes
    the current instant `now : Int` as an explicit argument.
  - JavaScript numbers holding counters/intervals are modelled as `Int`.
  - Nullable fields are `Option`s (`none` = JS `null`).
  - The dynamic-object behaviour of `fromJSON`/`toJSON` (`Object.assign`
    wholesale overwrite, fixed-field projection) is modelled over `Jso`,
    an insertion-ordered association list of string keys to JSON-ish values,
    with JS object semantics (`setField` overwrites in place or appends).
  - The manager's `Map` is an insertion-ordered association list; the
    persisted JSON document is carried in the `Manager` structure and
    rewritten from the map by every mutating call, mirroring
    `saveUserStates()`.
-/

/-- A JSON-ish dynamic value as stored on a deserialized record.
`time t` stands for the ISO-8601 timestamp string of instant `t`;
`undef` is JavaScript `undefined` (absent property access). -/
inductive JVal where
  | null
  | undef
  | bool (b : Bool)
  | num (n : Int)
  | str (s : String)
  | time (t : Int)
deriving DecidableEq, Repr

/-- A JavaScript object: insertion-ordered list of (key, value) properties. -/
abbrev Jso : Type := List (String × JVal)

/-- Property read: the first (unique, for real JS objects) binding of `k`. -/
def Jso.get (o : Jso) (k : String) : Option JVal :=
  match o with
  | [] => none
  | (k', v) :: rest => if k' = k then some v else Jso.get rest k

/-- Property read as JS sees it: absent properties read as `undefined`. -/
def Jso.getD (o : Jso) (k : String) : JVal :=
  (o.get k).getD JVal.undef

/-- Property write: overwrite the first binding of `k` in place, or append. -/
def Jso.setField (o : Jso) (k : String) (v : JVal) : Jso :=
  match o with
  | [] => [(k, v)]
  | (k', v') :: rest =>
    if k' = k then (k', v) :: rest else (k', v') :: Jso.setField rest k v

/-- The keys of an object, in property order. -/
def Jso.keys (o : Jso) : List String :=
  o.map Prod.fst

/-- `Object.assign(target, source)`: copy every property of `source` onto
`target`, in source property order. -/
def Jso.objAssign (target source : Jso) : Jso :=
  match source with
  | [] => target
  | (k, v) :: rest => Jso.objAssign (target.setField k v) rest

/-- The onboarding record of one user in one guild, translated field by field
from the `UserState` constructor. -/
structure UserState where
  userId : String
  guildId : String
  onboardingStep : String
  rulesAcknowledged : Bool
  rulesAcknowledgedAt : Option Int
  githubConnected : Bool
  githubUsername : Option String
  tutorialCompleted : Bool
  onboardingStartedAt : Int
  onboardingCompletedAt : Option Int
  remindersSent : Int
deriving DecidableEq, Repr

/-- `new UserState(userId, guildId)` at instant `now`: the constructor's
defaults (`onboardingStartedAt = new Date().toISOString()`). -/
def UserState.new (userId guildId : String) (now : Int) : UserState :=
  { userId := userId
    guildId := guildId
    onboardingStep := "welcome"
    rulesAcknowledged := false
    rulesAcknowledgedAt := none
    githubConnected := false
    githubUsername := none
    tutorialCompleted := false
    onboardingStartedAt := now
    onboardingCompletedAt := none
    remindersSent := 0 }

/-- `completeStep(step)` at instant `now`: the switch on the step being
completed. Unrecognized steps fall through the switch and change nothing. -/
def UserState.completeStep (s : UserState) (step : String) (now : Int) :
    UserState :=
  match step with
  | "rules" =>
    { s with
      rulesAcknowledged := true
      rulesAcknowledgedAt := some now
      onboardingStep := "github" }
  | "github" =>
    { s with onboardingStep := "tutorial" }
  | "tutorial" =>
    { s with
      tutorialCompleted := true
      onboardingStep := "complete"
      onboardingCompletedAt := some now }
  | _ => s

/-- `isComplete()`: true iff the step is `"complete"`. -/
def UserState.isComplete (s : UserState) : Bool :=
  s.onboardingStep == "complete"

/-- `UserState.toJSON()`: the eleven canonical fields of a (typed) record,
in the fixed order of the source literal. -/
def UserState.toJSON (s : UserState) : Jso :=
  [ ("userId", JVal.str s.userId),
    ("guildId", JVal.str s.guildId),
    ("onboardingStep", JVal.str s.onboardingStep),
    ("rulesAcknowledged", JVal.bool s.rulesAcknowledged),
    ("rulesAcknowledgedAt", (s.rulesAcknowledgedAt.map JVal.time).getD JVal.null),
    ("githubConnected", JVal.bool s.githubConnected),
    ("githubUsername", (s.githubUsername.map JVal.str).getD JVal.null),
    ("tutorialCompleted", JVal.bool s.tutorialCompleted),
    ("onboardingStartedAt", JVal.time s.onboardingStartedAt),
    ("onboardingCompletedAt", (s.onboardingCompletedAt.map JVal.time).getD JVal.null),
    ("remindersSent", JVal.num s.remindersSent) ]

/-- The `new UserState(data.userId, data.guildId)` object before
`Object.assign`, as a dynamic object: the constructor fields in declaration
order, at deserialization instant `now`. -/
def UserState.defaultObj (userId guildId : JVal) (now : Int) : Jso :=
  [ ("userId", userId),
    ("guildId", guildId),
    ("onboardingStep", JVal.str "welcome"),
    ("rulesAcknowledged", JVal.bool false),
    ("rulesAcknowledgedAt", JVal.null),
    ("githubConnected", JVal.bool false),
    ("githubUsername", JVal.null),
    ("tutorialCompleted", JVal.bool false),
    ("onboardingStartedAt", JVal.time now),
    ("onboardingCompletedAt", JVal.null),
    ("remindersSent", JVal.num 0) ]

/-- `UserState.fromJSON(data)` at instant `now`: construct from
`data.userId`/`data.guildId`, then `Object.assign(state, data)`. The result
is the live dynamic object (extra fields of `data` pass through). -/
def UserState.fromJSONObj (data : Jso) (now : Int) : Jso :=
  Jso.objAssign
    (UserState.defaultObj (data.getD "userId") (data.getD "guildId") now) data

/-- `toJSON()` as it acts on the live dynamic object: project exactly the
eleven canonical properties, in the fixed order of the source literal. -/
def UserState.serializeObj (o : Jso) : Jso :=
  [ ("userId", o.getD "userId"),
    ("guildId", o.getD "guildId"),
    ("onboardingStep", o.getD "onboardingStep"),
    ("rulesAcknowledged", o.getD "rulesAcknowledged"),
    ("rulesAcknowledgedAt", o.getD "rulesAcknowledgedAt"),
    ("githubConnected", o.getD "githubConnected"),
    ("githubUsername", o.getD "githubUsername"),
    ("tutorialCompleted", o.getD "tutorialCompleted"),
    ("onboardingStartedAt", o.getD "onboardingStartedAt"),
    ("onboardingCompletedAt", o.getD "onboardingCompletedAt"),
    ("remindersSent", o.getD "remindersSent") ]

/-- The canonical `UserState` field names, in `toJSON()` order. There are
eleven of them (the spec's count of "ten" miscounts the §3 list). -/
def UserState.canonicalFields : List String :=
  [ "userId", "guildId", "onboardingStep", "rulesAcknowledged",
    "rulesAcknowledgedAt", "githubConnected", "githubUsername",
    "tutorialCompleted", "onboardingStartedAt", "onboardingCompletedAt",
    "remindersSent" ]

/-- `getDefaultWelcomeMessage()`: the fixed localized template. -/
def OnboardingConfig.defaultWelcomeMessage : String :=
  "¡Bienvenido/a al servidor! 👋\n\n¡Nos alegra tenerte aquí! Para comenzar, necesitas:\n\n1. 📋 Leer y aceptar las reglas del servidor\n2. 🔗 Conectar tu cuenta de GitHub (opcional)\n3. 📚 Completar un breve tutorial\n\nUsa `/help` para ver todos los comandos disponibles.\n¡Esperamos que disfrutes tu tiempo aquí!"

/-- `getDefaultRulesContent()`: the fixed localized template. -/
def OnboardingConfig.defaultRulesContent : String :=
  "📋 **Reglas del Servidor**\n\n**1. Respeto y Cortesía**\n- Trata a todos los miembros con respeto\n- No se toleran insultos, acoso o discriminación\n\n**2. Contenido Apropiado**\n- Mantén las conversaciones apropiadas para todos\n- No spam ni contenido irrelevante\n\n**3. Canales Temáticos**\n- Usa los canales apropiados para cada tema\n- Mantén las discusiones organizadas\n\n**4. Código de Conducta para Desarrolladores**\n- Comparte código de manera constructiva\n- Ayuda a otros desarrolladores cuando sea posible\n- Respeta las diferentes tecnologías y enfoques\n\n**5. Privacidad y Seguridad**\n- No compartas información personal\n- No publiques credenciales o tokens\n\nAl hacer clic en \"Acepto\", confirmas que has leído y aceptas estas reglas."

/-- The per-guild onboarding settings, translated field by field from the
`OnboardingConfig` constructor. `guildId` is `Option String` because the
constructor accepts a missing/null argument and `validate()` checks its
truthiness. -/
structure OnboardingConfig where
  guildId : Option String
  welcomeChannelId : Option String
  rulesChannelId : Option String
  welcomeMessage : String
  rulesContent : String
  githubIntegrationEnabled : Bool
  tutorialEnabled : Bool
  reminderIntervalHours : Int
  maxReminders : Int
deriving DecidableEq, Repr

/-- `new OnboardingConfig(guildId)`: the constructor's defaults. -/
def OnboardingConfig.new (guildId : Option String) : OnboardingConfig :=
  { guildId := guildId
    welcomeChannelId := none
    rulesChannelId := none
    welcomeMessage := OnboardingConfig.defaultWelcomeMessage
    rulesContent := OnboardingConfig.defaultRulesContent
    githubIntegrationEnabled := true
    tutorialEnabled := true
    reminderIntervalHours := 24
    maxReminders := 3 }

/-- JavaScript truth-test `!g` for a nullable string: falsy when absent or
empty. -/
def jsStrFalsy (g : Option String) : Bool :=
  match g with
  | none => true
  | some s => s == ""

/-- Whitespace as removed by JavaScript `String.prototype.trim` (the code
points that occur in this codebase's strings). -/
def isJsSpace (c : Char) : Bool :=
  c == ' ' || c == '\t' || c == '\n' || c == '\r'

/-- JavaScript `String.prototype.trim`: strip whitespace from both ends. -/
def jsTrim (s : String) : String :=
  ⟨((s.data.dropWhile isJsSpace).reverse.dropWhile isJsSpace).reverse⟩

/-- The structured result of `validate()`. -/
structure ValidationResult where
  isValid : Bool
  errors : List String
deriving DecidableEq, Repr

/-- `validate()`: the five sequential checks, each pushing its message onto
`errors`; `isValid` is `errors.length === 0`. -/
def OnboardingConfig.validate (c : OnboardingConfig) : ValidationResult :=
  let errors : List String := []
  let errors := if jsStrFalsy c.guildId then
    errors ++ ["Guild ID es requerido"] else errors
  let errors := if c.reminderIntervalHours < 1 ∨ c.reminderIntervalHours > 168 then
    errors ++ ["Intervalo de recordatorios debe estar entre 1 y 168 horas"] else errors
  let errors := if c.maxReminders < 0 ∨ c.maxReminders > 10 then
    errors ++ ["Máximo de recordatorios debe estar entre 0 y 10"] else errors
  let errors := if c.welcomeMessage = "" ∨ (jsTrim c.welcomeMessage).length = 0 then
    errors ++ ["Mensaje de bienvenida no puede estar vacío"] else errors
  let errors := if c.rulesContent = "" ∨ (jsTrim c.rulesContent).length = 0 then
    errors ++ ["Contenido de reglas no puede estar vacío"] else errors
  { isValid := errors.isEmpty, errors := errors }

/-- The `new OnboardingConfig(data.guildId)` object before `Object.assign`,
as a dynamic object: the constructor fields in declaration order. -/
def OnboardingConfig.defaultObj (guildId : JVal) : Jso :=
  [ ("guildId", guildId),
    ("welcomeChannelId", JVal.null),
    ("rulesChannelId", JVal.null),
    ("welcomeMessage", JVal.str OnboardingConfig.defaultWelcomeMessage),
    ("rulesContent", JVal.str OnboardingConfig.defaultRulesContent),
    ("githubIntegrationEnabled", JVal.bool true),
    ("tutorialEnabled", JVal.bool true),
    ("reminderIntervalHours", JVal.num 24),
    ("maxReminders", JVal.num 3) ]

/-- `OnboardingConfig.fromJSON(data)`: construct from `data.guildId`, then
`Object.assign(config, data)`. -/
def OnboardingConfig.fromJSONObj (data : Jso) : Jso :=
  Jso.objAssign (OnboardingConfig.defaultObj (data.getD "guildId")) data

/-- `OnboardingConfig.toJSON()` acting on the live dynamic object: project
exactly the nine canonical properties, in the fixed order of the source
literal. -/
def OnboardingConfig.serializeObj (o : Jso) : Jso :=
  [ ("guildId", o.getD "guildId"),
    ("welcomeChannelId", o.getD "welcomeChannelId"),
    ("rulesChannelId", o.getD "rulesChannelId"),
    ("welcomeMessage", o.getD "welcomeMessage"),
    ("rulesContent", o.getD "rulesContent"),
    ("githubIntegrationEnabled", o.getD "githubIntegrationEnabled"),
    ("tutorialEnabled", o.getD "tutorialEnabled"),
    ("reminderIntervalHours", o.getD "reminderIntervalHours"),
    ("maxReminders", o.getD "maxReminders") ]

/-- The nine canonical `OnboardingConfig` field names, in `toJSON()` order. -/
def OnboardingConfig.canonicalFields : List String :=
  [ "guildId", "welcomeChannelId", "rulesChannelId", "welcomeMessage",
    "rulesContent", "githubIntegrationEnabled", "tutorialEnabled",
    "reminderIntervalHours", "maxReminders" ]

/-- `Map.prototype.get` on an insertion-ordered association list: the value
of the (unique) binding of `k`. -/
def mapGet {β : Type} (m : List (String × β)) (k : String) : Option β :=
  match m with
  | [] => none
  | (k', v) :: rest => if k' = k then some v else mapGet rest k

/-- `Map.prototype.set`: overwrite the binding of `k` in place, or append a
new binding at the end (insertion order). -/
def mapSet {β : Type} (m : List (String × β)) (k : String) (v : β) :
    List (String × β) :=
  match m with
  | [] => [(k, v)]
  | (k', v') :: rest =>
    if k' = k then (k', v) :: rest else (k', v') :: mapSet rest k v

/-- `Map.prototype.delete`: remove the (unique) binding of `k`; a no-op when
the key is absent. -/
def mapDelete {β : Type} (m : List (String × β)) (k : String) :
    List (String × β) :=
  match m with
  | [] => []
  | (k', v') :: rest =>
    if k' = k then rest else (k', v') :: mapDelete rest k

/-- The `UserStateManager`'s observable state: the in-memory map (insertion
ordered) and the contents of `userStates.json` on disk. -/
structure Manager where
  userStates : List (String × UserState)
  diskFile : List (String × Jso)
deriving Repr

/-- `getUserKey(userId, guildId)`: the composite key. -/
def getUserKey (userId guildId : String) : String :=
  guildId ++ "-" ++ userId

/-- `saveUserStates()`: the JSON document written to disk — every entry of
the map, serialized with `toJSON()`. -/
def saveUserStates (states : List (String × UserState)) :
    List (String × Jso) :=
  states.map (fun kv => (kv.1, kv.2.toJSON))

/-- `getUserState(userId, guildId)`: the record for the composite key, or
null (`none`) when absent. -/
def Manager.getUserState (m : Manager) (userId guildId : String) :
    Option UserState :=
  mapGet m.userStates (getUserKey userId guildId)

/-- A shallow patch over the canonical `UserState` fields, as accepted by
`updateUserState`: `none` means the field is absent from the patch object
and is left untouched by `Object.assign`. -/
structure UserStatePatch where
  userId : Option String := none
  guildId : Option String := none
  onboardingStep : Option String := none
  rulesAcknowledged : Option Bool := none
  rulesAcknowledgedAt : Option (Option Int) := none
  githubConnected : Option Bool := none
  githubUsername : Option (Option String) := none
  tutorialCompleted : Option Bool := none
  onboardingStartedAt : Option Int := none
  onboardingCompletedAt : Option (Option Int) := none
  remindersSent : Option Int := none
deriving DecidableEq, Repr

/-- `Object.assign(state, updates)`: each field present in the patch
overwrites the record's field; absent fields are untouched. -/
def UserState.applyPatch (s : UserState) (p : UserStatePatch) : UserState :=
  { userId := p.userId.getD s.userId
    guildId := p.guildId.getD s.guildId
    onboardingStep := p.onboardingStep.getD s.onboardingStep
    rulesAcknowledged := p.rulesAcknowledged.getD s.rulesAcknowledged
    rulesAcknowledgedAt := p.rulesAcknowledgedAt.getD s.rulesAcknowledgedAt
    githubConnected := p.githubConnected.getD s.githubConnected
    githubUsername := p.githubUsername.getD s.githubUsername
    tutorialCompleted := p.tutorialCompleted.getD s.tutorialCompleted
    onboardingStartedAt := p.onboardingStartedAt.getD s.onboardingStartedAt
    onboardingCompletedAt := p.onboardingCompletedAt.getD s.onboardingCompletedAt
    remindersSent := p.remindersSent.getD s.remindersSent }

/-- `updateUserState(userId, guildId, updates)` at instant `now`: fetch or
create the record for the key, apply the patch, persist the entire map, and
return the updated record. -/
def Manager.updateUserState (m : Manager) (userId guildId : String)
    (updates : UserStatePatch) (now : Int) : UserState × Manager :=
  let key := getUserKey userId guildId
  let state :=
    match mapGet m.userStates key with
    | some s => s
    | none => UserState.new userId guildId now
  let state := state.applyPatch updates
  let newStates := mapSet m.userStates key state
  (state, { userStates := newStates, diskFile := saveUserStates newStates })

/-- `markStepComplete(userId, guildId, step)` at instant `now`: fetch or
create the record, run the `completeStep` transition, persist, return it. -/
def Manager.markStepComplete (m : Manager) (userId guildId step : String)
    (now : Int) : UserState × Manager :=
  let key := getUserKey userId guildId
  let state :=
    match mapGet m.userStates key with
    | some s => s
    | none => UserState.new userId guildId now
  let state := state.completeStep step now
  let newStates := mapSet m.userStates key state
  (state, { userStates := newStates, diskFile := saveUserStates newStates })

/-- `deleteUserState(userId, guildId)`: remove the entry (no error when
absent) and persist. -/
def Manager.deleteUserState (m : Manager) (userId guildId : String) :
    Manager :=
  let newStates := mapDelete m.userStates (getUserKey userId guildId)
  { userStates := newStates, diskFile := saveUserStates newStates }

/-- The body of `getUsersNeedingReminders`' loop over the map entries:
guild match, rules not acknowledged and reminder cap as the outer test, the
24-hour threshold as the inner test; matches are pushed in map order. -/
def remindersLoop (entries : List (String × UserState)) (guildId : String)
    (maxReminders : Int) (now : Int) (threshold : Int) : List UserState :=
  match entries with
  | [] => []
  | (_, state) :: rest =>
    if state.guildId = guildId ∧ state.rulesAcknowledged = false ∧
        state.remindersSent < maxReminders then
      if now - state.onboardingStartedAt ≥ threshold then
        state :: remindersLoop rest guildId maxReminders now threshold
      else
        remindersLoop rest guildId maxReminders now threshold
    else
      remindersLoop rest guildId maxReminders now threshold

/-- `getUsersNeedingReminders(guildId, maxReminders)` at instant `now`,
with the hardcoded 24-hour threshold in milliseconds. -/
def Manager.getUsersNeedingReminders (m : Manager) (guildId : String)
    (maxReminders : Int) (now : Int) : List UserState :=
  remindersLoop m.userStates guildId maxReminders now (24 * 60 * 60 * 1000)

/-- The reminder-eligibility predicate of `getUsersNeedingReminders`, as a
filter condition over stored records. -/
def reminderEligible (guildId : String) (maxReminders now : Int)
    (s : UserState) : Bool :=
  decide (s.guildId = guildId ∧ s.rulesAcknowledged = false ∧
    s.remindersSent < maxReminders ∧
    now - s.onboardingStartedAt ≥ 24 * 60 * 60 * 1000)

/-! ### Helper lemmas about the association-list primitives -/

theorem Jso.get_setField_self (o : Jso) (k : String) (v : JVal) :
    (o.setField k v).get k = some v := by
  induction o with
  | nil => simp [Jso.setField, Jso.get]
  | cons kv rest ih =>
    obtain ⟨k', v'⟩ := kv
    by_cases h : k' = k
    · simp [Jso.setField, Jso.get, h]
    · simp [Jso.setField, Jso.get, h, ih]

theorem Jso.get_setField_ne (o : Jso) (k k' : String) (v : JVal)
    (h : k' ≠ k) : (o.setField k' v).get k = o.get k := by
  induction o with
  | nil => simp [Jso.setField, Jso.get, h]
  | cons kv rest ih =>
    obtain ⟨k'', v''⟩ := kv
    by_cases h2 : k'' = k'
    · subst h2
      simp [Jso.setField, Jso.get, h]
    · simp [Jso.setField, Jso.get, h2, ih]

theorem Jso.get_objAssign_of_not_mem (t src : Jso) (k : String)
    (h : k ∉ src.keys) : (Jso.objAssign t src).get k = t.get k := by
  induction src generalizing t with
  | nil => rfl
  | cons kv rest ih =>
    obtain ⟨k', v'⟩ := kv
    simp only [Jso.keys, List.map_cons, List.mem_cons, not_or] at h
    rw [Jso.objAssign, ih _ (by simpa [Jso.keys] using h.2),
      Jso.get_setField_ne _ _ _ _ (fun he => h.1 he.symm)]

theorem Jso.get_objAssign_of_get (t src : Jso) (k : String) (v : JVal)
    (hnd : src.keys.Nodup) (h : src.get k = some v) :
    (Jso.objAssign t src).get k = some v := by
  induction src generalizing t with
  | nil => simp [Jso.get] at h
  | cons kv rest ih =>
    obtain ⟨k', v'⟩ := kv
    simp only [Jso.keys, List.map_cons, List.nodup_cons] at hnd
    rw [Jso.get] at h
    by_cases he : k' = k
    · rw [if_pos he] at h
      injection h with h
      subst h
      subst he
      rw [Jso.objAssign,
        Jso.get_objAssign_of_not_mem _ _ _ (by simpa [Jso.keys] using hnd.1)]
      exact Jso.get_setField_self t k' v'
    · rw [if_neg he] at h
      rw [Jso.objAssign]
      exact ih _ hnd.2 h

theorem mapGet_mapSet_self {β : Type} (m : List (String × β)) (k : String)
    (v : β) : mapGet (mapSet m k v) k = some v := by
  induction m with
  | nil => simp [mapSet, mapGet]
  | cons kv rest ih =>
    obtain ⟨k', v'⟩ := kv
    by_cases h : k' = k
    · simp [mapSet, mapGet, h]
    · simp [mapSet, mapGet, h, ih]

theorem mapGet_mapDelete_self {β : Type} (m : List (String × β))
    (k : String) (hnd : (m.map Prod.fst).Nodup) :
    mapGet (mapDelete m k) k = none := by
  induction m with
  | nil => rfl
  | cons kv rest ih =>
    obtain ⟨k', v'⟩ := kv
    simp only [List.map_cons, List.nodup_cons] at hnd
    by_cases h : k' = k
    · subst h
      rw [mapDelete, if_pos rfl]
      clear ih
      induction rest with
      | nil => rfl
      | cons kv2 rest2 ih2 =>
        obtain ⟨k2, v2⟩ := kv2
        simp only [List.map_cons, List.mem_cons, List.nodup_cons, not_or] at hnd
        rw [mapGet, if_neg (fun he => hnd.1.1 he.symm)]
        exact ih2 ⟨fun hm => hnd.1.2 hm, hnd.2.2⟩
    · rw [mapDelete, if_neg h, mapGet, if_neg h]
      exact ih hnd.2

theorem mapDelete_of_get_none {β : Type} (m : List (String × β))
    (k : String) (h : mapGet m k = none) : mapDelete m k = m := by
  induction m with
  | nil => rfl
  | cons kv rest ih =>
    obtain ⟨k', v'⟩ := kv
    rw [mapGet] at h
    by_cases he : k' = k
    · rw [if_pos he] at h
      exact absurd h (by simp)
    · rw [if_neg he] at h
      rw [mapDelete, if_neg he, ih h]

/-! ### Claim theorems -/

/-- C1: on a default-constructed record, `completeStep("rules")` sets
`rulesAcknowledged` to true, a non-null `rulesAcknowledgedAt`, and advances
`onboardingStep` to `"github"`; `completeStep("github")` then advances to
`"tutorial"`; `completeStep("tutorial")` then sets `tutorialCompleted`,
`onboardingStep = "complete"`, a non-null `onboardingCompletedAt`, after
which `isComplete()` is true. -/
theorem userState_completeStep_chain (uid gid : String) (t0 t1 t2 t3 : Int) :
    (((UserState.new uid gid t0).completeStep "rules" t1).rulesAcknowledged
        = true) ∧
    (((UserState.new uid gid t0).completeStep "rules" t1).rulesAcknowledgedAt
        = some t1) ∧
    (((UserState.new uid gid t0).completeStep "rules" t1).rulesAcknowledgedAt
        ≠ none) ∧
    (((UserState.new uid gid t0).completeStep "rules" t1).onboardingStep
        = "github") ∧
    ((((UserState.new uid gid t0).completeStep "rules" t1).completeStep
        "github" t2).onboardingStep = "tutorial") ∧
    (((((UserState.new uid gid t0).completeStep "rules" t1).completeStep
        "github" t2).completeStep "tutorial" t3).tutorialCompleted = true) ∧
    (((((UserState.new uid gid t0).completeStep "rules" t1).completeStep
        "github" t2).completeStep "tutorial" t3).onboardingStep
        = "complete") ∧
    (((((UserState.new uid gid t0).completeStep "rules" t1).completeStep
        "github" t2).completeStep "tutorial" t3).onboardingCompletedAt
        = some t3) ∧
    (((((UserState.new uid gid t0).completeStep "rules" t1).completeStep
        "github" t2).completeStep "tutorial" t3).onboardingCompletedAt
        ≠ none) ∧
    (((((UserState.new uid gid t0).completeStep "rules" t1).completeStep
        "github" t2).completeStep "tutorial" t3).isComplete = true) := by
  refine ⟨rfl, rfl, by simp [UserState.completeStep, UserState.new], rfl, rfl,
    rfl, rfl, rfl, by simp [UserState.completeStep, UserState.new], rfl⟩

/-- C4: `completeStep` does not guard on the current step: completing
`"tutorial"` on a record still at `"welcome"` jumps it straight to
`"complete"`. -/
theorem userState_completeStep_skip_ahead (s : UserState) (now : Int)
    (h : s.onboardingStep = "welcome") :
    (s.completeStep "tutorial" now).onboardingStep = "complete" := rfl

/-- Witness for C4 at a concrete record. -/
theorem userState_completeStep_skip_ahead_witness :
    (UserState.new "u" "g" 0).onboardingStep = "welcome" ∧
    ((UserState.new "u" "g" 0).completeStep "tutorial" 7).onboardingStep
      = "complete" :=
  ⟨rfl, userState_completeStep_skip_ahead (UserState.new "u" "g" 0) 7 rfl⟩

/-- C7: `completeStep` with any argument other than `"rules"`, `"github"`
or `"tutorial"` is a silent no-op: no error is raised and every field is
left unchanged. -/
theorem userState_completeStep_noop (s : UserState) (step : String)
    (now : Int) (h1 : step ≠ "rules") (h2 : step ≠ "github")
    (h3 : step ≠ "tutorial") : s.completeStep step now = s := by
  unfold UserState.completeStep
  split
  · exact absurd rfl h1
  · exact absurd rfl h2
  · exact absurd rfl h3
  · rfl

/-- Witness for C7 at the concrete non-transition argument `"welcome"`. -/
theorem userState_completeStep_noop_witness :
    ("welcome" ≠ "rules") ∧ ("welcome" ≠ "github") ∧
    ("welcome" ≠ "tutorial") ∧
    (UserState.new "u" "g" 3).completeStep "welcome" 9 =
      UserState.new "u" "g" 3 :=
  ⟨by decide, by decide, by decide,
    userState_completeStep_noop (UserState.new "u" "g" 3) "welcome" 9
      (by decide) (by decide) (by decide)⟩

/-- C9: for every record and step argument, `completeStep` leaves
`userId`, `guildId`, `githubConnected`, `githubUsername`,
`onboardingStartedAt` and `remindersSent` unchanged (it touches at most
`rulesAcknowledged`, `rulesAcknowledgedAt`, `onboardingStep`,
`tutorialCompleted` and `onboardingCompletedAt`). -/
theorem userState_completeStep_frame (s : UserState) (step : String)
    (now : Int) :
    (s.completeStep step now).userId = s.userId ∧
    (s.completeStep step now).guildId = s.guildId ∧
    (s.completeStep step now).githubConnected = s.githubConnected ∧
    (s.completeStep step now).githubUsername = s.githubUsername ∧
    (s.completeStep step now).onboardingStartedAt = s.onboardingStartedAt ∧
    (s.completeStep step now).remindersSent = s.remindersSent := by
  unfold UserState.completeStep
  split <;> simp

/-- C10: `fromJSON` on data holding only `userId` and `guildId` fills every
missing canonical field with the constructor's default: step `"welcome"`,
`rulesAcknowledged` false, `remindersSent` 0, and a freshly generated
`onboardingStartedAt` equal to the deserialization instant. -/
theorem userState_fromJSON_defaults (v w : JVal) (now : Int) :
    ((UserState.fromJSONObj [("userId", v), ("guildId", w)] now).get
        "onboardingStep" = some (JVal.str "welcome")) ∧
    ((UserState.fromJSONObj [("userId", v), ("guildId", w)] now).get
        "rulesAcknowledged" = some (JVal.bool false)) ∧
    ((UserState.fromJSONObj [("userId", v), ("guildId", w)] now).get
        "remindersSent" = some (JVal.num 0)) ∧
    ((UserState.fromJSONObj [("userId", v), ("guildId", w)] now).get
        "onboardingStartedAt" = some (JVal.time now)) :=
  ⟨rfl, rfl, rfl, rfl⟩

theorem remindersLoop_eq_filter (entries : List (String × UserState))
    (guildId : String) (maxReminders now threshold : Int) :
    remindersLoop entries guildId maxReminders now threshold =
      (entries.map Prod.snd).filter
        (fun s => decide (s.guildId = guildId ∧ s.rulesAcknowledged = false ∧
          s.remindersSent < maxReminders ∧
          now - s.onboardingStartedAt ≥ threshold)) := by
  induction entries with
  | nil => rfl
  | cons kv rest ih =>
    obtain ⟨k, s⟩ := kv
    rw [List.map_cons, List.filter_cons, remindersLoop]
    by_cases h1 : s.guildId = guildId ∧ s.rulesAcknowledged = false ∧
        s.remindersSent < maxReminders
    · by_cases h2 : now - s.onboardingStartedAt ≥ threshold
      · rw [if_pos h1, if_pos h2, ih, if_pos]
        simp [h1.1, h1.2.1, h1.2.2, h2]
      · rw [if_pos h1, if_neg h2, ih, if_neg]
        simp [h2]
    · rw [if_neg h1, ih, if_neg]
      simp only [decide_eq_true_eq]
      intro hg
      exact h1 ⟨hg.1, hg.2.1, hg.2.2.1⟩

/-- C2: `getUsersNeedingReminders(guildId, maxReminders)` returns exactly
the stored records whose `guildId` matches, whose `rulesAcknowledged` is
false, whose `remindersSent` is strictly below `maxReminders` (so a record
at exactly `maxReminders` is excluded), and whose onboarding started at
least the hardcoded 24 hours ago, in map-iteration order; every returned
record is one of the stored records, unmutated (the map itself is
untouched). -/
theorem manager_getUsersNeedingReminders_spec (m : Manager)
    (guildId : String) (maxReminders now : Int) :
    (m.getUsersNeedingReminders guildId maxReminders now =
      (m.userStates.map Prod.snd).filter
        (reminderEligible guildId maxReminders now)) ∧
    ((m.getUsersNeedingReminders guildId maxReminders now).Sublist
      (m.userStates.map Prod.snd)) ∧
    (∀ s, s ∈ m.getUsersNeedingReminders guildId maxReminders now →
      s.remindersSent ≠ maxReminders) := by
  have hq : m.getUsersNeedingReminders guildId maxReminders now =
      (m.userStates.map Prod.snd).filter
        (reminderEligible guildId maxReminders now) := by
    rw [Manager.getUsersNeedingReminders, remindersLoop_eq_filter]
    rfl
  refine ⟨hq, ?_, ?_⟩
  · rw [hq]
    exact List.filter_sublist _
  · intro s hs
    rw [hq] at hs
    have := List.of_mem_filter hs
    simp only [reminderEligible, decide_eq_true_eq] at this
    exact fun he => absurd (he ▸ this.2.2.1) (lt_irrefl _)

/-- C8: `deleteUserState(userId, guildId)` removes the entry for the
composite key, is a silent no-op (not an error) when the key is absent,
persists the whole map, and a subsequent `getUserState` on the same key
yields null. -/
theorem manager_deleteUserState_then_get (m : Manager) (u g : String)
    (hnd : (m.userStates.map Prod.fst).Nodup) :
    ((m.deleteUserState u g).getUserState u g = none) ∧
    ((m.deleteUserState u g).diskFile =
      saveUserStates (m.deleteUserState u g).userStates) ∧
    (m.getUserState u g = none →
      (m.deleteUserState u g).userStates = m.userStates) := by
  refine ⟨?_, rfl, ?_⟩
  · exact mapGet_mapDelete_self _ _ hnd
  · intro h
    exact mapDelete_of_get_none _ _ h

/-- Witness for C8: a one-entry store, then an absent key. -/
theorem manager_deleteUserState_then_get_witness :
    (((⟨[("g-u", UserState.new "u" "g" 0)], []⟩ : Manager).userStates.map
        Prod.fst).Nodup) ∧
    ((((⟨[("g-u", UserState.new "u" "g" 0)], []⟩ : Manager).deleteUserState
        "u" "g").getUserState "u" "g" = none) ∧
      (((⟨[("g-u", UserState.new "u" "g" 0)], []⟩ : Manager).deleteUserState
          "u" "g").diskFile =
        saveUserStates (((⟨[("g-u", UserState.new "u" "g" 0)], []⟩ :
          Manager).deleteUserState "u" "g").userStates)) ∧
      ((⟨[("g-u", UserState.new "u" "g" 0)], []⟩ : Manager).getUserState
          "u" "g" = none →
        (((⟨[("g-u", UserState.new "u" "g" 0)], []⟩ : Manager).deleteUserState
          "u" "g").userStates =
          (⟨[("g-u", UserState.new "u" "g" 0)], []⟩ : Manager).userStates))) :=
  ⟨by decide,
    manager_deleteUserState_then_get
      ⟨[("g-u", UserState.new "u" "g" 0)], []⟩ "u" "g" (by decide)⟩

/-- C3: `updateUserState` on an absent key creates a record with the
constructor defaults and the patch overwritten on top, stores it under the
composite key, persists the whole map, and returns it; a second
`updateUserState` on the same key applies its patch field by field on top,
so a field set by the later patch has the later value, a field set only by
the earlier patch keeps the earlier value, and untouched fields keep the
defaults; each call returns the stored record and persists the map. -/
theorem manager_updateUserState_create_merge (m : Manager) (u g : String)
    (p1 p2 : UserStatePatch) (t1 t2 : Int)
    (habs : m.getUserState u g = none) :
    ((m.updateUserState u g p1 t1).1 =
      (UserState.new u g t1).applyPatch p1) ∧
    ((m.updateUserState u g p1 t1).2.getUserState u g =
      some (m.updateUserState u g p1 t1).1) ∧
    ((m.updateUserState u g p1 t1).2.diskFile =
      saveUserStates (m.updateUserState u g p1 t1).2.userStates) ∧
    (((m.updateUserState u g p1 t1).2.updateUserState u g p2 t2).1 =
      ((UserState.new u g t1).applyPatch p1).applyPatch p2) ∧
    (((m.updateUserState u g p1 t1).2.updateUserState u g p2 t2).2.getUserState
        u g =
      some ((m.updateUserState u g p1 t1).2.updateUserState u g p2 t2).1) ∧
    (((m.updateUserState u g p1 t1).2.updateUserState u g p2 t2).2.diskFile =
      saveUserStates
        ((m.updateUserState u g p1 t1).2.updateUserState u g p2 t2).2.userStates) ∧
    (((m.updateUserState u g p1 t1).2.updateUserState u g p2 t2).1.userId =
      p2.userId.getD (p1.userId.getD u)) ∧
    (((m.updateUserState u g p1 t1).2.updateUserState u g p2 t2).1.guildId =
      p2.guildId.getD (p1.guildId.getD g)) ∧
    (((m.updateUserState u g p1 t1).2.updateUserState u g p2 t2).1.onboardingStep =
      p2.onboardingStep.getD (p1.onboardingStep.getD "welcome")) ∧
    (((m.updateUserState u g p1 t1).2.updateUserState u g p2 t2).1.rulesAcknowledged =
      p2.rulesAcknowledged.getD (p1.rulesAcknowledged.getD false)) ∧
    (((m.updateUserState u g p1 t1).2.updateUserState u g p2 t2).1.rulesAcknowledgedAt =
      p2.rulesAcknowledgedAt.getD (p1.rulesAcknowledgedAt.getD none)) ∧
    (((m.updateUserState u g p1 t1).2.updateUserState u g p2 t2).1.githubConnected =
      p2.githubConnected.getD (p1.githubConnected.getD false)) ∧
    (((m.updateUserState u g p1 t1).2.updateUserState u g p2 t2).1.githubUsername =
      p2.githubUsername.getD (p1.githubUsername.getD none)) ∧
    (((m.updateUserState u g p1 t1).2.updateUserState u g p2 t2).1.tutorialCompleted =
      p2.tutorialCompleted.getD (p1.tutorialCompleted.getD false)) ∧
    (((m.updateUserState u g p1 t1).2.updateUserState u g p2 t2).1.onboardingStartedAt =
      p2.onboardingStartedAt.getD (p1.onboardingStartedAt.getD t1)) ∧
    (((m.updateUserState u g p1 t1).2.updateUserState u g p2 t2).1.onboardingCompletedAt =
      p2.onboardingCompletedAt.getD (p1.onboardingCompletedAt.getD none)) ∧
    (((m.updateUserState u g p1 t1).2.updateUserState u g p2 t2).1.remindersSent =
      p2.remindersSent.getD (p1.remindersSent.getD 0)) := by
  have habs' : mapGet m.userStates (getUserKey u g) = none := habs
  have e1 : m.updateUserState u g p1 t1 =
      ((UserState.new u g t1).applyPatch p1,
        ⟨mapSet m.userStates (getUserKey u g)
            ((UserState.new u g t1).applyPatch p1),
          saveUserStates (mapSet m.userStates (getUserKey u g)
            ((UserState.new u g t1).applyPatch p1))⟩) := by
    simp only [Manager.updateUserState, habs']
  have hget : mapGet (mapSet m.userStates (getUserKey u g)
      ((UserState.new u g t1).applyPatch p1)) (getUserKey u g) =
      some ((UserState.new u g t1).applyPatch p1) :=
    mapGet_mapSet_self _ _ _
  have e2 : (m.updateUserState u g p1 t1).2.updateUserState u g p2 t2 =
      (((UserState.new u g t1).applyPatch p1).applyPatch p2,
        ⟨mapSet (mapSet m.userStates (getUserKey u g)
            ((UserState.new u g t1).applyPatch p1)) (getUserKey u g)
            (((UserState.new u g t1).applyPatch p1).applyPatch p2),
          saveUserStates (mapSet (mapSet m.userStates (getUserKey u g)
            ((UserState.new u g t1).applyPatch p1)) (getUserKey u g)
            (((UserState.new u g t1).applyPatch p1).applyPatch p2))⟩) := by
    rw [e1]
    simp only [Manager.updateUserState, hget]
  rw [e2, e1]
  exact ⟨rfl, mapGet_mapSet_self _ _ _, rfl, rfl, mapGet_mapSet_self _ _ _,
    rfl, rfl, rfl, rfl, rfl, rfl, rfl, rfl, rfl, rfl, rfl, rfl⟩

/-- Witness for C3: an empty store, a first patch setting `onboardingStep`
and `remindersSent`, a second patch overriding only `remindersSent`. -/
theorem manager_updateUserState_create_merge_witness :
    ((⟨[], []⟩ : Manager).getUserState "u" "g" = none) ∧
    ((((⟨[], []⟩ : Manager).updateUserState "u" "g" ({ onboardingStep := some "rules", remindersSent := some 1 } : UserStatePatch) 0).1 =
      (UserState.new "u" "g" 0).applyPatch ({ onboardingStep := some "rules", remindersSent := some 1 } : UserStatePatch)) ∧
    (((⟨[], []⟩ : Manager).updateUserState "u" "g" ({ onboardingStep := some "rules", remindersSent := some 1 } : UserStatePatch) 0).2.getUserState "u" "g" =
      some ((⟨[], []⟩ : Manager).updateUserState "u" "g" ({ onboardingStep := some "rules", remindersSent := some 1 } : UserStatePatch) 0).1) ∧
    (((⟨[], []⟩ : Manager).updateUserState "u" "g" ({ onboardingStep := some "rules", remindersSent := some 1 } : UserStatePatch) 0).2.diskFile =
      saveUserStates ((⟨[], []⟩ : Manager).updateUserState "u" "g" ({ onboardingStep := some "rules", remindersSent := some 1 } : UserStatePatch) 0).2.userStates) ∧
    ((((⟨[], []⟩ : Manager).updateUserState "u" "g" ({ onboardingStep := some "rules", remindersSent := some 1 } : UserStatePatch) 0).2.updateUserState "u" "g" ({ remindersSent := some 2 } : UserStatePatch) 1).1 =
      ((UserState.new "u" "g" 0).applyPatch ({ onboardingStep := some "rules", remindersSent := some 1 } : UserStatePatch)).applyPatch ({ remindersSent := some 2 } : UserStatePatch)) ∧
    ((((⟨[], []⟩ : Manager).updateUserState "u" "g" ({ onboardingStep := some "rules", remindersSent := some 1 } : UserStatePatch) 0).2.updateUserState "u" "g" ({ remindersSent := some 2 } : UserStatePatch) 1).2.getUserState
        "u" "g" =
      some (((⟨[], []⟩ : Manager).updateUserState "u" "g" ({ onboardingStep := some "rules", remindersSent := some 1 } : UserStatePatch) 0).2.updateUserState "u" "g" ({ remindersSent := some 2 } : UserStatePatch) 1).1) ∧
    ((((⟨[], []⟩ : Manager).updateUserState "u" "g" ({ onboardingStep := some "rules", remindersSent := some 1 } : UserStatePatch) 0).2.updateUserState "u" "g" ({ remindersSent := some 2 } : UserStatePatch) 1).2.diskFile =
      saveUserStates
        (((⟨[], []⟩ : Manager).updateUserState "u" "g" ({ onboardingStep := some "rules", remindersSent := some 1 } : UserStatePatch) 0).2.updateUserState "u" "g" ({ remindersSent := some 2 } : UserStatePatch) 1).2.userStates) ∧
    ((((⟨[], []⟩ : Manager).updateUserState "u" "g" ({ onboardingStep := some "rules", remindersSent := some 1 } : UserStatePatch) 0).2.updateUserState "u" "g" ({ remindersSent := some 2 } : UserStatePatch) 1).1.userId =
      ({ remindersSent := some 2 } : UserStatePatch).userId.getD (({ onboardingStep := some "rules", remindersSent := some 1 } : UserStatePatch).userId.getD "u")) ∧
    ((((⟨[], []⟩ : Manager).updateUserState "u" "g" ({ onboardingStep := some "rules", remindersSent := some 1 } : UserStatePatch) 0).2.updateUserState "u" "g" ({ remindersSent := some 2 } : UserStatePatch) 1).1.guildId =
      ({ remindersSent := some 2 } : UserStatePatch).guildId.getD (({ onboardingStep := some "rules", remindersSent := some 1 } : UserStatePatch).guildId.getD "g")) ∧
    ((((⟨[], []⟩ : Manager).updateUserState "u" "g" ({ onboardingStep := some "rules", remindersSent := some 1 } : UserStatePatch) 0).2.updateUserState "u" "g" ({ remindersSent := some 2 } : UserStatePatch) 1).1.onboardingStep =
      ({ remindersSent := some 2 } : UserStatePatch).onboardingStep.getD (({ onboardingStep := some "rules", remindersSent := some 1 } : UserStatePatch).onboardingStep.getD "welcome")) ∧
    ((((⟨[], []⟩ : Manager).updateUserState "u" "g" ({ onboardingStep := some "rules", remindersSent := some 1 } : UserStatePatch) 0).2.updateUserState "u" "g" ({ remindersSent := some 2 } : UserStatePatch) 1).1.rulesAcknowledged =
      ({ remindersSent := some 2 } : UserStatePatch).rulesAcknowledged.getD (({ onboardingStep := some "rules", remindersSent := some 1 } : UserStatePatch).rulesAcknowledged.getD false)) ∧
    ((((⟨[], []⟩ : Manager).updateUserState "u" "g" ({ onboardingStep := some "rules", remindersSent := some 1 } : UserStatePatch) 0).2.updateUserState "u" "g" ({ remindersSent := some 2 } : UserStatePatch) 1).1.rulesAcknowledgedAt =
      ({ remindersSent := some 2 } : UserStatePatch).rulesAcknowledgedAt.getD (({ onboardingStep := some "rules", remindersSent := some 1 } : UserStatePatch).rulesAcknowledgedAt.getD none)) ∧
    ((((⟨[], []⟩ : Manager).updateUserState "u" "g" ({ onboardingStep := some "rules", remindersSent := some 1 } : UserStatePatch) 0).2.updateUserState "u" "g" ({ remindersSent := some 2 } : UserStatePatch) 1).1.githubConnected =
      ({ remindersSent := some 2 } : UserStatePatch).githubConnected.getD (({ onboardingStep := some "rules", remindersSent := some 1 } : UserStatePatch).githubConnected.getD false)) ∧
    ((((⟨[], []⟩ : Manager).updateUserState "u" "g" ({ onboardingStep := some "rules", remindersSent := some 1 } : UserStatePatch) 0).2.updateUserState "u" "g" ({ remindersSent := some 2 } : UserStatePatch) 1).1.githubUsername =
      ({ remindersSent := some 2 } : UserStatePatch).githubUsername.getD (({ onboardingStep := some "rules", remindersSent := some 1 } : UserStatePatch).githubUsername.getD none)) ∧
    ((((⟨[], []⟩ : Manager).updateUserState "u" "g" ({ onboardingStep := some "rules", remindersSent := some 1 } : UserStatePatch) 0).2.updateUserState "u" "g" ({ remindersSent := some 2 } : UserStatePatch) 1).1.tutorialCompleted =
      ({ remindersSent := some 2 } : UserStatePatch).tutorialCompleted.getD (({ onboardingStep := some "rules", remindersSent := some 1 } : UserStatePatch).tutorialCompleted.getD false)) ∧
    ((((⟨[], []⟩ : Manager).updateUserState "u" "g" ({ onboardingStep := some "rules", remindersSent := some 1 } : UserStatePatch) 0).2.updateUserState "u" "g" ({ remindersSent := some 2 } : UserStatePatch) 1).1.onboardingStartedAt =
      ({ remindersSent := some 2 } : UserStatePatch).onboardingStartedAt.getD (({ onboardingStep := some "rules", remindersSent := some 1 } : UserStatePatch).onboardingStartedAt.getD 0)) ∧
    ((((⟨[], []⟩ : Manager).updateUserState "u" "g" ({ onboardingStep := some "rules", remindersSent := some 1 } : UserStatePatch) 0).2.updateUserState "u" "g" ({ remindersSent := some 2 } : UserStatePatch) 1).1.onboardingCompletedAt =
      ({ remindersSent := some 2 } : UserStatePatch).onboardingCompletedAt.getD (({ onboardingStep := some "rules", remindersSent := some 1 } : UserStatePatch).onboardingCompletedAt.getD none)) ∧
    ((((⟨[], []⟩ : Manager).updateUserState "u" "g" ({ onboardingStep := some "rules", remindersSent := some 1 } : UserStatePatch) 0).2.updateUserState "u" "g" ({ remindersSent := some 2 } : UserStatePatch) 1).1.remindersSent =
      ({ remindersSent := some 2 } : UserStatePatch).remindersSent.getD (({ onboardingStep := some "rules", remindersSent := some 1 } : UserStatePatch).remindersSent.getD 0))) :=
  ⟨rfl,
    manager_updateUserState_create_merge ⟨[], []⟩ "u" "g"
      ({ onboardingStep := some "rules", remindersSent := some 1 } :
        UserStatePatch)
      ({ remindersSent := some 2 } : UserStatePatch) 0 1 rfl⟩

theorem userSerializeObj_get_canonical (o : Jso) (k : String)
    (hk : k ∈ UserState.canonicalFields) :
    (UserState.serializeObj o).get k = some (o.getD k) := by
  simp only [UserState.canonicalFields, List.mem_cons,
    List.not_mem_nil, or_false] at hk
  rcases hk with rfl | rfl | rfl | rfl | rfl | rfl | rfl | rfl | rfl |
    rfl | rfl <;> rfl

theorem userSerializeObj_get_other (o : Jso) (k : String)
    (hk : k ∉ UserState.canonicalFields) :
    (UserState.serializeObj o).get k = none := by
  simp only [UserState.canonicalFields, List.mem_cons,
    List.not_mem_nil, or_false, not_or] at hk
  obtain ⟨h1, h2, h3, h4, h5, h6, h7, h8, h9, h10, h11⟩ := hk
  simp [UserState.serializeObj, Jso.get, Ne.symm h1, Ne.symm h2, Ne.symm h3,
    Ne.symm h4, Ne.symm h5, Ne.symm h6, Ne.symm h7, Ne.symm h8, Ne.symm h9,
    Ne.symm h10, Ne.symm h11]

theorem configSerializeObj_get_canonical (o : Jso) (k : String)
    (hk : k ∈ OnboardingConfig.canonicalFields) :
    (OnboardingConfig.serializeObj o).get k = some (o.getD k) := by
  simp only [OnboardingConfig.canonicalFields, List.mem_cons,
    List.not_mem_nil, or_false] at hk
  rcases hk with rfl | rfl | rfl | rfl | rfl | rfl | rfl | rfl | rfl <;> rfl

theorem configSerializeObj_get_other (o : Jso) (k : String)
    (hk : k ∉ OnboardingConfig.canonicalFields) :
    (OnboardingConfig.serializeObj o).get k = none := by
  simp only [OnboardingConfig.canonicalFields, List.mem_cons,
    List.not_mem_nil, or_false, not_or] at hk
  obtain ⟨h1, h2, h3, h4, h5, h6, h7, h8, h9⟩ := hk
  simp [OnboardingConfig.serializeObj, Jso.get, Ne.symm h1, Ne.symm h2,
    Ne.symm h3, Ne.symm h4, Ne.symm h5, Ne.symm h6, Ne.symm h7, Ne.symm h8,
    Ne.symm h9]

/-- C5 counterexample: `UserState` serialization emits eleven canonical
fields, not ten — §3 lists eleven field names and `toJSON()` projects all
of them, so "exactly the ten canonical fields" is false on any record. -/
theorem userState_serialize_eleven_fields_not_ten :
    ((UserState.serializeObj (UserState.fromJSONObj
      [("userId", JVal.str "u"), ("guildId", JVal.str "g")] 0)).keys.length
      = 11) ∧
    ¬ ((UserState.serializeObj (UserState.fromJSONObj
      [("userId", JVal.str "u"), ("guildId", JVal.str "g")] 0)).keys.length
      = 10) := by
  exact ⟨rfl, by decide⟩

/-- C5 (amended): `Serialize()` produces exactly the canonical `UserState`
fields listed in §3 (eleven of them, not ten) in fixed order and nothing
else; `Serialize(Deserialize(x))` reproduces every canonical field present
in `x` exactly, and any non-canonical field of `x` is absent after the
round trip; likewise for `OnboardingConfig` with its nine canonical
fields. -/
theorem serialize_deserialize_roundtrip (x y : Jso) (now : Int)
    (hx : x.keys.Nodup) (hy : y.keys.Nodup) :
    ((UserState.serializeObj (UserState.fromJSONObj x now)).keys =
      UserState.canonicalFields) ∧
    (∀ k v, k ∈ UserState.canonicalFields → x.get k = some v →
      (UserState.serializeObj (UserState.fromJSONObj x now)).get k =
        some v) ∧
    (∀ k, k ∉ UserState.canonicalFields →
      (UserState.serializeObj (UserState.fromJSONObj x now)).get k =
        none) ∧
    ((OnboardingConfig.serializeObj (OnboardingConfig.fromJSONObj y)).keys =
      OnboardingConfig.canonicalFields) ∧
    (∀ k v, k ∈ OnboardingConfig.canonicalFields → y.get k = some v →
      (OnboardingConfig.serializeObj (OnboardingConfig.fromJSONObj y)).get k
        = some v) ∧
    (∀ k, k ∉ OnboardingConfig.canonicalFields →
      (OnboardingConfig.serializeObj (OnboardingConfig.fromJSONObj y)).get k
        = none) := by
  refine ⟨rfl, ?_, ?_, rfl, ?_, ?_⟩
  · intro k v hk hv
    have hget : (UserState.fromJSONObj x now).get k = some v :=
      Jso.get_objAssign_of_get _ _ _ _ hx hv
    rw [userSerializeObj_get_canonical _ _ hk]
    simp [Jso.getD, hget]
  · intro k hk
    exact userSerializeObj_get_other _ _ hk
  · intro k v hk hv
    have hget : (OnboardingConfig.fromJSONObj y).get k = some v :=
      Jso.get_objAssign_of_get _ _ _ _ hy hv
    rw [configSerializeObj_get_canonical _ _ hk]
    simp [Jso.getD, hget]
  · intro k hk
    exact configSerializeObj_get_other _ _ hk

/-- Witness for C5 (amended): a user object carrying an extra field
`"extra"` and a config object carrying an extra field `"junk"`. -/
theorem serialize_deserialize_roundtrip_witness :
    ((Jso.keys [("userId", JVal.str "u"), ("extra", JVal.num 7)]).Nodup) ∧
    ((Jso.keys [("guildId", JVal.str "g"), ("junk", JVal.bool true)]).Nodup) ∧
    (((UserState.serializeObj (UserState.fromJSONObj
        [("userId", JVal.str "u"), ("extra", JVal.num 7)] 3)).keys =
      UserState.canonicalFields) ∧
    (∀ k v, k ∈ UserState.canonicalFields →
      Jso.get [("userId", JVal.str "u"), ("extra", JVal.num 7)] k =
        some v →
      (UserState.serializeObj (UserState.fromJSONObj
        [("userId", JVal.str "u"), ("extra", JVal.num 7)] 3)).get k =
        some v) ∧
    (∀ k, k ∉ UserState.canonicalFields →
      (UserState.serializeObj (UserState.fromJSONObj
        [("userId", JVal.str "u"), ("extra", JVal.num 7)] 3)).get k =
        none) ∧
    ((OnboardingConfig.serializeObj (OnboardingConfig.fromJSONObj
        [("guildId", JVal.str "g"), ("junk", JVal.bool true)])).keys =
      OnboardingConfig.canonicalFields) ∧
    (∀ k v, k ∈ OnboardingConfig.canonicalFields →
      Jso.get [("guildId", JVal.str "g"), ("junk", JVal.bool true)] k =
        some v →
      (OnboardingConfig.serializeObj (OnboardingConfig.fromJSONObj
        [("guildId", JVal.str "g"), ("junk", JVal.bool true)])).get k =
        some v) ∧
    (∀ k, k ∉ OnboardingConfig.canonicalFields →
      (OnboardingConfig.serializeObj (OnboardingConfig.fromJSONObj
        [("guildId", JVal.str "g"), ("junk", JVal.bool true)])).get k =
        none)) :=
  ⟨by decide, by decide,
    serialize_deserialize_roundtrip
      [("userId", JVal.str "u"), ("extra", JVal.num 7)]
      [("guildId", JVal.str "g"), ("junk", JVal.bool true)] 3
      (by decide) (by decide)⟩

set_option maxRecDepth 10000

/-- C6: `validate()` runs five independent checks, collecting every
violation without short-circuiting, in the fixed order guildId presence,
`reminderIntervalHours ∈ [1,168]`, `maxReminders ∈ [0,10]`,
`welcomeMessage` non-blank after trimming, `rulesContent` non-blank after
trimming, and `isValid` is exactly "no errors"; on a default-constructed
config (with a present guildId) it returns `isValid = true`, `errors = []`;
and each single violation — `reminderIntervalHours` 0 or 200, `maxReminders`
-1 or 11, blank `welcomeMessage` or `rulesContent` — independently yields
`isValid = false` with its specific message present. -/
theorem onboardingConfig_validate_spec (c : OnboardingConfig) (g : String)
    (hg : g ≠ "") :
    (c.validate.errors =
      (if jsStrFalsy c.guildId then ["Guild ID es requerido"] else []) ++
      (if c.reminderIntervalHours < 1 ∨ c.reminderIntervalHours > 168 then
        ["Intervalo de recordatorios debe estar entre 1 y 168 horas"]
      else []) ++
      (if c.maxReminders < 0 ∨ c.maxReminders > 10 then
        ["Máximo de recordatorios debe estar entre 0 y 10"] else []) ++
      (if c.welcomeMessage = "" ∨ (jsTrim c.welcomeMessage).length = 0 then
        ["Mensaje de bienvenida no puede estar vacío"] else []) ++
      (if c.rulesContent = "" ∨ (jsTrim c.rulesContent).length = 0 then
        ["Contenido de reglas no puede estar vacío"] else [])) ∧
    (c.validate.isValid = c.validate.errors.isEmpty) ∧
    ((OnboardingConfig.new (some g)).validate.isValid = true) ∧
    ((OnboardingConfig.new (some g)).validate.errors = []) ∧
    (({ OnboardingConfig.new (some g) with
        reminderIntervalHours := 0 }).validate.isValid = false) ∧
    ("Intervalo de recordatorios debe estar entre 1 y 168 horas" ∈
      ({ OnboardingConfig.new (some g) with
        reminderIntervalHours := 0 }).validate.errors) ∧
    (({ OnboardingConfig.new (some g) with
        reminderIntervalHours := 200 }).validate.isValid = false) ∧
    ("Intervalo de recordatorios debe estar entre 1 y 168 horas" ∈
      ({ OnboardingConfig.new (some g) with
        reminderIntervalHours := 200 }).validate.errors) ∧
    (({ OnboardingConfig.new (some g) with
        maxReminders := -1 }).validate.isValid = false) ∧
    ("Máximo de recordatorios debe estar entre 0 y 10" ∈
      ({ OnboardingConfig.new (some g) with
        maxReminders := -1 }).validate.errors) ∧
    (({ OnboardingConfig.new (some g) with
        maxReminders := 11 }).validate.isValid = false) ∧
    ("Máximo de recordatorios debe estar entre 0 y 10" ∈
      ({ OnboardingConfig.new (some g) with
        maxReminders := 11 }).validate.errors) ∧
    (({ OnboardingConfig.new (some g) with
        welcomeMessage := "" }).validate.isValid = false) ∧
    ("Mensaje de bienvenida no puede estar vacío" ∈
      ({ OnboardingConfig.new (some g) with
        welcomeMessage := "" }).validate.errors) ∧
    (({ OnboardingConfig.new (some g) with
        rulesContent := "   " }).validate.isValid = false) ∧
    ("Contenido de reglas no puede estar vacío" ∈
      ({ OnboardingConfig.new (some g) with
        rulesContent := "   " }).validate.errors) := by
  have h1 : jsStrFalsy (some g) = false := by
    simp [jsStrFalsy, hg]
  have h2 : ¬((24:Int) < 1 ∨ (24:Int) > 168) := by decide
  have h3 : ¬((3:Int) < 0 ∨ (3:Int) > 10) := by decide
  have h4 : ¬(OnboardingConfig.defaultWelcomeMessage = "" ∨
      (jsTrim OnboardingConfig.defaultWelcomeMessage).length = 0) := by
    decide
  have h5 : ¬(OnboardingConfig.defaultRulesContent = "" ∨
      (jsTrim OnboardingConfig.defaultRulesContent).length = 0) := by
    decide
  have hvd : (OnboardingConfig.new (some g)).validate = ⟨true, []⟩ := by
    simp [OnboardingConfig.validate, OnboardingConfig.new, h1, h2, h3, h4, h5]
  have hv1 : ({ OnboardingConfig.new (some g) with
      reminderIntervalHours := 0 }).validate =
      ⟨false, ["Intervalo de recordatorios debe estar entre 1 y 168 horas"]⟩ := by
    simp [OnboardingConfig.validate, OnboardingConfig.new, h1, h3, h4, h5,
      show ((0:Int) < 1 ∨ (0:Int) > 168) from by decide]
  have hv2 : ({ OnboardingConfig.new (some g) with
      reminderIntervalHours := 200 }).validate =
      ⟨false, ["Intervalo de recordatorios debe estar entre 1 y 168 horas"]⟩ := by
    simp [OnboardingConfig.validate, OnboardingConfig.new, h1, h3, h4, h5,
      show ((200:Int) < 1 ∨ (200:Int) > 168) from by decide]
  have hv3 : ({ OnboardingConfig.new (some g) with
      maxReminders := -1 }).validate =
      ⟨false, ["Máximo de recordatorios debe estar entre 0 y 10"]⟩ := by
    simp [OnboardingConfig.validate, OnboardingConfig.new, h1, h2, h4, h5,
      show ((-1:Int) < 0 ∨ (-1:Int) > 10) from by decide]
  have hv4 : ({ OnboardingConfig.new (some g) with
      maxReminders := 11 }).validate =
      ⟨false, ["Máximo de recordatorios debe estar entre 0 y 10"]⟩ := by
    simp [OnboardingConfig.validate, OnboardingConfig.new, h1, h2, h4, h5,
      show ((11:Int) < 0 ∨ (11:Int) > 10) from by decide]
  have hv5 : ({ OnboardingConfig.new (some g) with
      welcomeMessage := "" }).validate =
      ⟨false, ["Mensaje de bienvenida no puede estar vacío"]⟩ := by
    simp [OnboardingConfig.validate, OnboardingConfig.new, h1, h2, h3, h5]
  have hv6 : ({ OnboardingConfig.new (some g) with
      rulesContent := "   " }).validate =
      ⟨false, ["Contenido de reglas no puede estar vacío"]⟩ := by
    simp [OnboardingConfig.validate, OnboardingConfig.new, h1, h2, h3, h4,
      show (jsTrim "   ").length = 0 from by decide]
  refine ⟨?_, rfl, by rw [hvd], by rw [hvd], by rw [hv1], ?_, by rw [hv2],
    ?_, by rw [hv3], ?_, by rw [hv4], ?_, by rw [hv5], ?_, by rw [hv6], ?_⟩
  · unfold OnboardingConfig.validate
    split_ifs <;> simp
  · rw [hv1]
    exact List.mem_singleton.mpr rfl
  · rw [hv2]
    exact List.mem_singleton.mpr rfl
  · rw [hv3]
    exact List.mem_singleton.mpr rfl
  · rw [hv4]
    exact List.mem_singleton.mpr rfl
  · rw [hv5]
    exact List.mem_singleton.mpr rfl
  · rw [hv6]
    exact List.mem_singleton.mpr rfl

/-- Witness for C6: the characterization at a config constructed with a
missing guildId, and the concrete default/violation cases at guildId
`"g"`. -/
theorem onboardingConfig_validate_spec_witness :
    (("g" : String) ≠ "") ∧
    (((OnboardingConfig.new none).validate.errors =
      (if jsStrFalsy (OnboardingConfig.new none).guildId then ["Guild ID es requerido"] else []) ++
      (if (OnboardingConfig.new none).reminderIntervalHours < 1 ∨ (OnboardingConfig.new none).reminderIntervalHours > 168 then
        ["Intervalo de recordatorios debe estar entre 1 y 168 horas"]
      else []) ++
      (if (OnboardingConfig.new none).maxReminders < 0 ∨ (OnboardingConfig.new none).maxReminders > 10 then
        ["Máximo de recordatorios debe estar entre 0 y 10"] else []) ++
      (if (OnboardingConfig.new none).welcomeMessage = "" ∨ (jsTrim (OnboardingConfig.new none).welcomeMessage).length = 0 then
        ["Mensaje de bienvenida no puede estar vacío"] else []) ++
      (if (OnboardingConfig.new none).rulesContent = "" ∨ (jsTrim (OnboardingConfig.new none).rulesContent).length = 0 then
        ["Contenido de reglas no puede estar vacío"] else [])) ∧
    ((OnboardingConfig.new none).validate.isValid = (OnboardingConfig.new none).validate.errors.isEmpty) ∧
    ((OnboardingConfig.new (some "g")).validate.isValid = true) ∧
    ((OnboardingConfig.new (some "g")).validate.errors = []) ∧
    (({ OnboardingConfig.new (some "g") with
        reminderIntervalHours := 0 }).validate.isValid = false) ∧
    ("Intervalo de recordatorios debe estar entre 1 y 168 horas" ∈
      ({ OnboardingConfig.new (some "g") with
        reminderIntervalHours := 0 }).validate.errors) ∧
    (({ OnboardingConfig.new (some "g") with
        reminderIntervalHours := 200 }).validate.isValid = false) ∧
    ("Intervalo de recordatorios debe estar entre 1 y 168 horas" ∈
      ({ OnboardingConfig.new (some "g") with
        reminderIntervalHours := 200 }).validate.errors) ∧
    (({ OnboardingConfig.new (some "g") with
        maxReminders := -1 }).validate.isValid = false) ∧
    ("Máximo de recordatorios debe estar entre 0 y 10" ∈
      ({ OnboardingConfig.new (some "g") with
        maxReminders := -1 }).validate.errors) ∧
    (({ OnboardingConfig.new (some "g") with
        maxReminders := 11 }).validate.isValid = false) ∧
    ("Máximo de recordatorios debe estar entre 0 y 10" ∈
      ({ OnboardingConfig.new (some "g") with
        maxReminders := 11 }).validate.errors) ∧
    (({ OnboardingConfig.new (some "g") with
        welcomeMessage := "" }).validate.isValid = false) ∧
    ("Mensaje de bienvenida no puede estar vacío" ∈
      ({ OnboardingConfig.new (some "g") with
        welcomeMessage := "" }).validate.errors) ∧
    (({ OnboardingConfig.new (some "g") with
        rulesContent := "   " }).validate.isValid = false) ∧
    ("Contenido de reglas no puede estar vacío" ∈
      ({ OnboardingConfig.new (some "g") with
        rulesContent := "   " }).validate.errors)) :=
  ⟨by decide, onboardingConfig_validate_spec (OnboardingConfig.new none) "g"
    (by decide)⟩
